import Mathlib

/-!
Shallow embedding of the Jarvis voice-assistant backend
(`src/backend/src/services/deepgram_direct.py`,
`src/backend/src/services/openai_service.py`, `src/backend/src/pipeline.py`,
`src/backend/src/server.py`) together with proofs about its
turn-finalization, conversation-history and audio-buffering logic.

Conventions of the embedding:
* Monotonic event-loop timestamps (`asyncio.get_event_loop().time()`) are
  rationals (`ℚ`).
* Raw audio byte strings are `List Nat`.
* A vendor callback or network send that may raise is represented by a
  `Bool` flag (`cbOk` / `sendOk`): `true` means the awaited call returned
  normally, `false` means it raised (and the exception was handled exactly
  where the Python code handles it).
* Each stateful method becomes a pure function from the service state (and
  the event payload) to the new state paired with the list of side effects
  it performed (callback invocations, bytes written, ...).
-/

namespace DirectDeepgramService

/-- The mutable fields of `DirectDeepgramService` that the transcript
finalization logic reads and writes:
`_last_interim_transcript`, `_last_interim_time`,
`_processed_final_in_session`, `is_connected`, and whether
`self.connection` is a non-`None` object. -/
structure DGState where
  lastInterimTranscript : String
  lastInterimTime : ℚ
  processedFinalInSession : Bool
  isConnected : Bool
  hasConnection : Bool
  deriving Repr, DecidableEq

/-- `DirectDeepgramService._on_message`, lines 166–218 of
`deepgram_direct.py`, after the defensive payload extraction: `payload` is
`none` when `result`/`channel`/`alternatives` is missing (the handler
returns early), otherwise `some (transcript, is_final)`.  `now` is the
event-loop time, `cbSet` says whether `self.on_transcript` is set, and
`cbOk` says whether the awaited callback returned normally.  The second
component lists the transcripts passed to `on_transcript`. -/
def on_message (st : DGState) (payload : Option (String × Bool)) (now : ℚ)
    (cbSet cbOk : Bool) : DGState × List String :=
  match payload with
  | none => (st, [])
  | some (transcript, isFinal) =>
    if transcript = "" then
      (st, [])
    else
      -- `if not is_final:` store the interim transcript and its timestamp
      let st1 :=
        if !isFinal then
          { st with lastInterimTranscript := transcript, lastInterimTime := now }
        else st
      -- `if self.on_transcript and is_final:` invoke the callback
      if cbSet && isFinal then
        if cbOk then
          -- clear interim after successful final, mark processed
          ({ st1 with lastInterimTranscript := ""
                      processedFinalInSession := true }, [transcript])
        else
          -- callback raised: logged and swallowed by the outer except,
          -- the post-call state updates never run
          (st1, [transcript])
      else
        (st1, [])

/-- `DirectDeepgramService.finalize`, lines 250–288 of
`deepgram_direct.py`, restricted to its state effects: the fallback check
performed after the 1.5 s settle sleep, assuming no transcript event
arrived in between (the callers of this definition state that assumption).
`now` is the event-loop time at the fallback check. -/
def finalize_fallback (st : DGState) (now : ℚ) (cbSet cbOk : Bool) :
    DGState × List String :=
  if st.isConnected && st.hasConnection then
    if st.lastInterimTranscript != "" &&
       decide (now - st.lastInterimTime < 3) &&
       !st.processedFinalInSession then
      if cbSet then
        if cbOk then
          ({ st with lastInterimTranscript := ""
                     processedFinalInSession := true },
           [st.lastInterimTranscript])
        else
          -- callback raised: caught by the `except`, state updates skipped
          (st, [st.lastInterimTranscript])
      else
        (st, [])
    else
      (st, [])
  else
    -- `Cannot finalize` branch: only a log line
    (st, [])

/-- `DirectDeepgramService.send_audio`, lines 220–248 of
`deepgram_direct.py`.  The second component lists the byte strings passed
to `self.connection.send`. -/
def send_audio (st : DGState) (now : ℚ) (audioData : List Nat)
    (sendOk : Bool) : DGState × List (List Nat) :=
  if st.isConnected && st.hasConnection then
    -- reset the final flag when sufficient time has passed
    let st1 :=
      if decide (now - st.lastInterimTime > 3) then
        { st with processedFinalInSession := false }
      else st
    if sendOk then (st1, [audioData])
    else (st1, [])  -- `connection.send` raised: logged, not re-raised
  else
    -- `Cannot send audio` branch: only a log line, nothing raised
    (st, [])

/-- One connection attempt of `DirectDeepgramService.connect`
(lines 29–131): whether the body up to and including
`connection.start(options)` raised, whether `start` returned truthy, and
whether `is_connected` was observed `true` after the 0.5 s settle sleep. -/
structure Attempt where
  raises : Bool
  startOk : Bool
  openConfirmed : Bool
  deriving Repr, DecidableEq

/-- An attempt of `connect` succeeds when nothing raised, `start` returned
truthy, and the open event was confirmed after the settle sleep. -/
def Attempt.succeeds (a : Attempt) : Bool :=
  !a.raises && a.startOk && a.openConfirmed

/-- The retry loop of `DirectDeepgramService.connect`: `attempts i`
describes what the i-th iteration of the `for attempt in range(max_retries)`
loop would observe, `remaining` is the number of loop iterations left.
Returns (result of `connect`, number of attempts performed, the sleeps
performed in seconds: `1/2` is the settle sleep after a truthy `start`,
`1` is the fixed wait between failed attempts). -/
def connectLoop (attempts : Nat → Attempt) (i remaining : Nat) :
    Bool × Nat × List ℚ :=
  match remaining with
  | 0 => (false, 0, [])
  | r + 1 =>
    let a := attempts i
    let settles : List ℚ := if !a.raises && a.startOk then [1/2] else []
    if a.succeeds then
      (true, 1, settles)
    else
      -- `if attempt < max_retries - 1: await asyncio.sleep(1); continue`
      let retryWaits : List ℚ := if r > 0 then [1] else []
      let rest := connectLoop attempts (i + 1) r
      (rest.1, rest.2.1 + 1, settles ++ retryWaits ++ rest.2.2)

/-- `DirectDeepgramService.connect(max_retries=3)`: run the retry loop from
attempt 0. -/
def connect (attempts : Nat → Attempt) (maxRetries : Nat := 3) :
    Bool × Nat × List ℚ :=
  connectLoop attempts 0 maxRetries

end DirectDeepgramService

namespace OpenAILLMService

/-- Message roles used by `OpenAILLMService`. -/
inductive Role where
  | system
  | user
  | assistant
  deriving Repr, DecidableEq

/-- One `{"role": ..., "content": ...}` entry of
`self._conversation_history`. -/
structure Message where
  role : Role
  content : String
  deriving Repr, DecidableEq

/-- `OpenAILLMService.set_system_prompt`, lines 84–94 of
`openai_service.py`: `self._conversation_history = [{"role": "system",
"content": system_prompt}]`. -/
def set_system_prompt (_history : List Message) (systemPrompt : String) :
    List Message :=
  [⟨Role.system, systemPrompt⟩]

/-- `OpenAILLMService.add_user_message`, lines 96–107. -/
def add_user_message (history : List Message) (message : String) :
    List Message :=
  history ++ [⟨Role.user, message⟩]

/-- `OpenAILLMService.add_assistant_message`, lines 109–120. -/
def add_assistant_message (history : List Message) (message : String) :
    List Message :=
  history ++ [⟨Role.assistant, message⟩]

/-- `OpenAILLMService.clear_history`, lines 233–252 of `openai_service.py`:
with `keep_system_prompt` and a non-empty history, keep the first
`"system"` entry if there is one; otherwise reset to the empty list. -/
def clear_history (history : List Message) (keepSystemPrompt : Bool) :
    List Message :=
  if keepSystemPrompt && !history.isEmpty then
    match history.find? (fun m => m.role == Role.system) with
    | some m => [m]
    | none => []
  else
    []

/-- The history operations reachable from the service interface. -/
inductive HistOp where
  | setPrompt (p : String)
  | addUser (m : String)
  | addAssistant (m : String)
  | clear (keep : Bool)
  deriving Repr, DecidableEq

/-- Apply one history operation. -/
def applyOp (history : List Message) : HistOp → List Message
  | .setPrompt p => set_system_prompt history p
  | .addUser m => add_user_message history m
  | .addAssistant m => add_assistant_message history m
  | .clear keep => clear_history history keep

/-- Run a sequence of history operations from the freshly constructed
service (`self._conversation_history = []` in `__init__`). -/
def runOps (ops : List HistOp) : List Message :=
  ops.foldl applyOp []

end OpenAILLMService

namespace JarvisPipeline

open DirectDeepgramService OpenAILLMService

/-- Outcome of one turn of the `handle_transcript` callback defined in
`JarvisPipeline.setup` (`pipeline.py`, lines 110–133). -/
inductive TurnOutcome where
  | completed (response : String)
  | skippedEmpty
  | aborted (err : String)
  deriving Repr, DecidableEq

/-- The `try` block of `handle_transcript` (`pipeline.py`, lines 113–126):
generate the LLM response; on an empty response skip TTS and return; else
synthesize.  `llm` and `tts` are the awaited collaborator calls, which may
raise (`Except.error`). -/
def turnBody (llm : String → Except String String)
    (tts : String → Except String Unit) (text : String) :
    Except String TurnOutcome :=
  match llm text with
  | Except.error e => Except.error e
  | Except.ok response =>
    -- `if not response:` skip TTS for an empty LLM response
    if response = "" then Except.ok TurnOutcome.skippedEmpty
    else
      match tts response with
      | Except.error e => Except.error e
      | Except.ok _ => Except.ok (TurnOutcome.completed response)

/-- The `handle_transcript` callback of `JarvisPipeline.setup`
(`pipeline.py`, lines 110–133): the try block wrapped in
`except Exception as e: logger.error(...)` — every exception from the LLM
or TTS call is caught and logged, never re-raised. -/
def handle_transcript (llm : String → Except String String)
    (tts : String → Except String Unit) (text : String) :
    Except String TurnOutcome :=
  match turnBody llm tts text with
  | Except.ok o => Except.ok o
  | Except.error e => Except.ok (TurnOutcome.aborted e)

/-- `JarvisPipeline.setup` (`pipeline.py`, lines 93–99), restricted to the
direct-Deepgram connection step: if `direct_deepgram.connect()` returned
`False`, raise `RuntimeError("Critical: Cannot connect to Deepgram!")`. -/
def setupConnect (connected : Bool) : Except String Unit :=
  if connected then Except.ok ()
  else Except.error "Critical: Cannot connect to Deepgram!"

/-- `JarvisPipeline.process_audio` (`pipeline.py`, lines 371–403): guard on
`use_direct_deepgram` and `direct_deepgram.is_connected`, then delegate to
`DirectDeepgramService.send_audio`. -/
def process_audio (useDirectDeepgram : Bool) (st : DGState) (now : ℚ)
    (audioData : List Nat) (sendOk : Bool) : DGState × List (List Nat) :=
  if !useDirectDeepgram then (st, [])
  else if !st.isConnected then (st, [])
  else DirectDeepgramService.send_audio st now audioData sendOk

/-- The outbound chunk size of `JarvisPipeline._speak_with_elevenlabs`
(`pipeline.py`, line 330): `CHUNK_SIZE = 8192`. -/
def CHUNK_SIZE : Nat := 8192

/-- The inner `while len(buffer) >= CHUNK_SIZE` loop of
`_speak_with_elevenlabs` (`pipeline.py`, lines 355–362): repeatedly send
the first `CHUNK_SIZE` bytes of the buffer.  Returns (chunks written to
the socket, remaining buffer). -/
def drainBuffer (buffer : List Nat) : List (List Nat) × List Nat :=
  if _h : CHUNK_SIZE ≤ buffer.length then
    let sent := buffer.take CHUNK_SIZE
    let rest := drainBuffer (buffer.drop CHUNK_SIZE)
    (sent :: rest.1, rest.2)
  else
    ([], buffer)
termination_by buffer.length
decreasing_by
  simp only [List.length_drop]
  have hpos : 0 < CHUNK_SIZE := by simp [CHUNK_SIZE]
  omega

/-- The `async for chunk in resp.aiter_bytes()` loop of
`_speak_with_elevenlabs` (`pipeline.py`, lines 333–369): skip empty
chunks, extend the buffer, drain full-size chunks, and after the stream
ends flush any remaining buffered data.  Returns the list of byte strings
passed to `transport.websocket.send_bytes`, in order. -/
def speakLoop (chunks : List (List Nat)) (buffer : List Nat) :
    List (List Nat) :=
  match chunks with
  | [] => if buffer.isEmpty then [] else [buffer]
  | c :: cs =>
    if c.isEmpty then speakLoop cs buffer
    else
      let d := drainBuffer (buffer ++ c)
      d.1 ++ speakLoop cs d.2

/-- The socket writes performed by `_speak_with_elevenlabs` for a given
stream of response chunks, starting from the empty buffer
(`buffer = bytearray()`, `pipeline.py` line 327). -/
def speak_with_elevenlabs (chunks : List (List Nat)) : List (List Nat) :=
  speakLoop chunks []

end JarvisPipeline

namespace Server

open OpenAILLMService

/-- Replies the WebSocket endpoint can send for a control message. -/
inductive Reply where
  | pong
  | cleared
  | promptUpdated
  deriving Repr, DecidableEq

/-- The conversation-relevant state the endpoint mutates through the
pipeline: the LLM conversation history and `pipeline.system_prompt`. -/
structure ConvState where
  history : List Message
  systemPrompt : String
  deriving Repr, DecidableEq

/-- The `elif msg_type == "clear":` branch of `websocket_endpoint`
(`server.py`, lines 213–219): `pipeline.clear_conversation()` calls
`llm_service.clear_history(keep_system_prompt=True)`, then the endpoint
replies `{"type": "cleared"}`. -/
def handleClear (s : ConvState) : ConvState × List Reply :=
  ({ s with history := clear_history s.history true }, [Reply.cleared])

/-- The `elif msg_type == "set_prompt":` branch of `websocket_endpoint`
(`server.py`, lines 221–229): `new_prompt = data.get("prompt", "")`; only
when `new_prompt` is truthy does the endpoint call
`pipeline.set_system_prompt(new_prompt)` (which replaces
`pipeline.system_prompt` and the LLM history) and reply
`{"type": "prompt_updated"}`. -/
def handleSetPrompt (s : ConvState) (promptField : Option String) :
    ConvState × List Reply :=
  let newPrompt := promptField.getD ""
  if newPrompt != "" then
    (⟨set_system_prompt s.history newPrompt, newPrompt⟩,
     [Reply.promptUpdated])
  else
    (s, [])

end Server

open DirectDeepgramService OpenAILLMService JarvisPipeline Server

/-! ## Claim theorems -/

/-- C1, counterexample: with the resolved flag already set
(`_processed_final_in_session = True`) and an empty interim buffer, a
duplicate final transcript event `("hello", is_final=True)` still invokes
the `on_transcript` callback — the list of callback invocations is
`["hello"]`, not `[]` as the claim requires. -/
theorem claim_C1_counterexample :
    (DirectDeepgramService.on_message ⟨"", 0, true, true, true⟩
        (some ("hello", true)) 0 true true).2 = ["hello"] ∧
    (DirectDeepgramService.on_message ⟨"", 0, true, true, true⟩
        (some ("hello", true)) 0 true true).2 ≠ ([] : List String) := by
  constructor
  · decide
  · decide

/-- C1, amended: once a final transcript has been resolved for the session
(`_processed_final_in_session = True`), the interim-fallback path of
`finalize` triggers zero additional response generations; but the
transcript handler `_on_message` has no such guard, so a duplicate
non-empty final event invokes the `on_transcript` callback again. -/
theorem claim_C1_amended_resolved_guard (st : DGState) (now : ℚ) (t : String)
    (hres : st.processedFinalInSession = true) (ht : t ≠ "") :
    (DirectDeepgramService.finalize_fallback st now true true).2 = [] ∧
    (DirectDeepgramService.on_message st (some (t, true)) now true true).2 =
      [t] := by
  constructor
  · simp [DirectDeepgramService.finalize_fallback, hres]
  · simp [DirectDeepgramService.on_message, ht]

/-- C1, witness for the amended theorem at a concrete resolved state and a
concrete duplicate final transcript. -/
theorem claim_C1_witness :
    (DirectDeepgramService.finalize_fallback ⟨"x", 0, true, true, true⟩ 1
        true true).2 = [] ∧
    (DirectDeepgramService.on_message ⟨"x", 0, true, true, true⟩
        (some ("hi", true)) 1 true true).2 = ["hi"] :=
  claim_C1_amended_resolved_guard ⟨"x", 0, true, true, true⟩ 1 "hi" rfl
    (by decide)

/-- C2: a transcript event with the final flag and non-empty text marks the
utterance resolved, clears the interim buffer, and invokes the registered
`on_transcript` callback exactly once with exactly that text; with empty
text the event is discarded without resolving and without any callback. -/
theorem claim_C2_final_event (st : DGState) (t : String) (now : ℚ) :
    DirectDeepgramService.on_message st (some (t, true)) now true true =
      if t = "" then (st, [])
      else ({ st with lastInterimTranscript := ""
                      processedFinalInSession := true }, [t]) := by
  by_cases ht : t = "" <;> simp [DirectDeepgramService.on_message, ht]

/-- C3: on a finalize request with the connection up and the callback
registered, if a non-empty interim transcript younger than 3 seconds is
stored and no final was resolved this session, exactly one response
generation is triggered with that interim text and the resolved flag is
set; otherwise zero generations occur and nothing is raised. -/
theorem claim_C3_finalize_fallback (st : DGState) (now : ℚ)
    (hconn : st.isConnected = true) (hobj : st.hasConnection = true) :
    DirectDeepgramService.finalize_fallback st now true true =
      if st.lastInterimTranscript ≠ "" ∧ now - st.lastInterimTime < 3 ∧
         st.processedFinalInSession = false then
        ({ st with lastInterimTranscript := ""
                   processedFinalInSession := true },
         [st.lastInterimTranscript])
      else (st, []) := by
  by_cases h1 : st.lastInterimTranscript = "" <;>
    by_cases h2 : now - st.lastInterimTime < 3 <;>
      by_cases h3 : st.processedFinalInSession <;>
        simp [DirectDeepgramService.finalize_fallback, hconn, hobj, h1, h2, h3]

/-- C3, witness: the scenario of the spec — interim `"hello there"` of age
1 s (< 3 s), no final resolved — yields exactly one generation with the
interim text. -/
theorem claim_C3_witness :
    DirectDeepgramService.finalize_fallback
        ⟨"hello there", 0, false, true, true⟩ 1 true true =
      (⟨"", 0, true, true, true⟩, ["hello there"]) := by
  have h := claim_C3_finalize_fallback ⟨"hello there", 0, false, true, true⟩
    1 rfl rfl
  rw [h, if_pos ⟨by decide, by norm_num, rfl⟩]

/-- C6: a `send_audio` call while the link is disconnected (`is_connected`
false or no connection object) drops the audio: nothing is sent, nothing
is raised, the state is unchanged, and `is_connected` keeps its value;
`process_audio` likewise forwards nothing when disconnected. -/
theorem claim_C6_send_audio_disconnected (st : DGState) (now : ℚ)
    (audioData : List Nat) (sendOk : Bool)
    (hdisc : (st.isConnected && st.hasConnection) = false) :
    DirectDeepgramService.send_audio st now audioData sendOk = (st, []) ∧
    (DirectDeepgramService.send_audio st now audioData sendOk).1.isConnected =
      st.isConnected ∧
    (st.isConnected = false →
      JarvisPipeline.process_audio true st now audioData sendOk = (st, [])) := by
  refine ⟨?_, ?_, ?_⟩
  · simp [DirectDeepgramService.send_audio, hdisc]
  · simp [DirectDeepgramService.send_audio, hdisc]
  · intro hic
    simp [JarvisPipeline.process_audio, hic]

/-- C6, witness at a concrete disconnected state and audio chunk. -/
theorem claim_C6_witness :
    DirectDeepgramService.send_audio ⟨"", 0, false, false, false⟩ 0 [1, 2]
        true = (⟨"", 0, false, false, false⟩, []) ∧
    (DirectDeepgramService.send_audio ⟨"", 0, false, false, false⟩ 0 [1, 2]
        true).1.isConnected = false ∧
    JarvisPipeline.process_audio true ⟨"", 0, false, false, false⟩ 0 [1, 2]
        true = (⟨"", 0, false, false, false⟩, []) :=
  ⟨(claim_C6_send_audio_disconnected ⟨"", 0, false, false, false⟩ 0 [1, 2]
      true rfl).1,
   (claim_C6_send_audio_disconnected ⟨"", 0, false, false, false⟩ 0 [1, 2]
      true rfl).2.1,
   (claim_C6_send_audio_disconnected ⟨"", 0, false, false, false⟩ 0 [1, 2]
      true rfl).2.2 rfl⟩

/-- C10: a `set_prompt` control message whose `"prompt"` field is absent or
the empty string is silently ignored: conversation state is unchanged and
no reply (neither `prompt_updated` nor an error) is sent. -/
theorem claim_C10_set_prompt_ignored (s : Server.ConvState)
    (promptField : Option String)
    (hp : promptField = none ∨ promptField = some "") :
    Server.handleSetPrompt s promptField = (s, []) := by
  rcases hp with h | h <;> subst h <;> simp [Server.handleSetPrompt]

/-- C10, witness at a concrete state and an absent prompt field. -/
theorem claim_C10_witness :
    Server.handleSetPrompt
        ⟨[⟨OpenAILLMService.Role.system, "s"⟩], "s"⟩ none =
      (⟨[⟨OpenAILLMService.Role.system, "s"⟩], "s"⟩, []) :=
  claim_C10_set_prompt_ignored _ none (Or.inl rfl)

/-- C4, counterexample: `set_system_prompt` applied to a history holding a
user and an assistant message does not preserve them — the whole history is
replaced by the single new system message, so the user entry is gone. -/
theorem claim_C4_counterexample :
    OpenAILLMService.set_system_prompt
        [⟨Role.system, "a"⟩, ⟨Role.user, "u"⟩, ⟨Role.assistant, "b"⟩] "c" =
      [⟨Role.system, "c"⟩] ∧
    (⟨Role.user, "u"⟩ : Message) ∉ OpenAILLMService.set_system_prompt
        [⟨Role.system, "a"⟩, ⟨Role.user, "u"⟩, ⟨Role.assistant, "b"⟩] "c" := by
  constructor
  · rfl
  · decide

/-- C4, amended: after a `clear` control message
(`clear_history(keep_system_prompt=True)`) on a history whose first entry
is the system message, the history is exactly that system message, and a
subsequent `set_prompt` yields exactly the new system message; but
`set_system_prompt` in general resets the history to the new system
message alone, discarding any user/assistant entries rather than
preserving them. -/
theorem claim_C4_amended_clear_then_set (h : List Message) (s p : String)
    (hhead : h.head? = some ⟨Role.system, s⟩) :
    OpenAILLMService.clear_history h true = [⟨Role.system, s⟩] ∧
    OpenAILLMService.set_system_prompt
        (OpenAILLMService.clear_history h true) p = [⟨Role.system, p⟩] ∧
    OpenAILLMService.set_system_prompt h p = [⟨Role.system, p⟩] := by
  cases h with
  | nil => simp at hhead
  | cons a t =>
    have ha : a = ⟨Role.system, s⟩ := by simpa using hhead
    subst ha
    have hf : List.find? (fun m => m.role == Role.system)
        (⟨Role.system, s⟩ :: t) = some ⟨Role.system, s⟩ :=
      List.find?_cons_of_pos _ (by simp)
    refine ⟨?_, rfl, rfl⟩
    simp [OpenAILLMService.clear_history, hf]

/-- C4, witness for the amended theorem: clear on
`[system "a", user "u"]` keeps exactly the system message, and the
subsequent prompt update yields exactly the new system message. -/
theorem claim_C4_witness :
    OpenAILLMService.clear_history
        [⟨Role.system, "a"⟩, ⟨Role.user, "u"⟩] true = [⟨Role.system, "a"⟩] ∧
    OpenAILLMService.set_system_prompt
        (OpenAILLMService.clear_history
          [⟨Role.system, "a"⟩, ⟨Role.user, "u"⟩] true) "c" =
      [⟨Role.system, "c"⟩] ∧
    OpenAILLMService.set_system_prompt
        [⟨Role.system, "a"⟩, ⟨Role.user, "u"⟩] "c" = [⟨Role.system, "c"⟩] :=
  claim_C4_amended_clear_then_set _ "a" "c" rfl

/-- Each history operation keeps the tail of the conversation history free
of `"system"` entries. -/
theorem applyOp_tail_system_free (h : List Message) (op : HistOp)
    (hh : h.tail.all (fun m => m.role != Role.system) = true) :
    (OpenAILLMService.applyOp h op).tail.all
      (fun m => m.role != Role.system) = true := by
  cases op with
  | setPrompt p => simp [OpenAILLMService.applyOp, set_system_prompt]
  | addUser m =>
    cases h with
    | nil => simp [OpenAILLMService.applyOp, add_user_message]
    | cons a t =>
      simp only [List.tail_cons] at hh
      simp [OpenAILLMService.applyOp, add_user_message, List.cons_append,
        List.all_append, hh]
  | addAssistant m =>
    cases h with
    | nil => simp [OpenAILLMService.applyOp, add_assistant_message]
    | cons a t =>
      simp only [List.tail_cons] at hh
      simp [OpenAILLMService.applyOp, add_assistant_message, List.cons_append,
        List.all_append, hh]
  | clear keep =>
    simp only [OpenAILLMService.applyOp, clear_history]
    split
    · cases hf : List.find? (fun m => m.role == Role.system) h <;> simp [hf]
    · simp

/-- Folding any sequence of history operations over a history whose tail is
system-free keeps the tail system-free. -/
theorem foldl_tail_system_free (ops : List HistOp) (h : List Message)
    (hh : h.tail.all (fun m => m.role != Role.system) = true) :
    (ops.foldl OpenAILLMService.applyOp h).tail.all
      (fun m => m.role != Role.system) = true := by
  induction ops generalizing h with
  | nil => exact hh
  | cons op ops ih => exact ih _ (applyOp_tail_system_free h op hh)

/-- A history whose tail is system-free has at most one `"system"` entry. -/
theorem filter_system_length_le_one (h : List Message)
    (hh : h.tail.all (fun m => m.role != Role.system) = true) :
    (h.filter (fun m => m.role == Role.system)).length ≤ 1 := by
  cases h with
  | nil => simp
  | cons a t =>
    simp only [List.tail_cons] at hh
    have ht : t.filter (fun m => m.role == Role.system) = [] := by
      refine List.filter_eq_nil_iff.mpr ?_
      intro m hm
      have := List.all_eq_true.mp hh m hm
      simpa using this
    by_cases hpa : (a.role == Role.system) = true <;>
      simp [List.filter_cons, hpa, ht]

/-- C5: every sequence of history operations (set prompt, add user message,
add assistant message, clear with or without keeping the system prompt),
run from the freshly initialized service, yields a history with at most
one `"system"` entry, and any such entry can only sit at the head (every
tail entry has a non-system role). -/
theorem claim_C5_system_invariant (ops : List HistOp) :
    ((OpenAILLMService.runOps ops).filter
        (fun m => m.role == Role.system)).length ≤ 1 ∧
    (OpenAILLMService.runOps ops).tail.all
        (fun m => m.role != Role.system) = true := by
  have h := foldl_tail_system_free ops [] (by simp)
  exact ⟨filter_system_length_le_one _ h, h⟩

/-- C9: every exception raised by the language-model call or the
speech-synthesis call inside the `handle_transcript` callback is caught
there: the handler never propagates an error to its caller, and a failing
LLM or TTS call yields an aborted turn outcome instead. -/
theorem claim_C9_turn_errors_contained
    (llm : String → Except String String) (tts : String → Except String Unit)
    (text : String) :
    (∀ e, JarvisPipeline.handle_transcript llm tts text ≠ Except.error e) ∧
    (∀ e, llm text = Except.error e →
      JarvisPipeline.handle_transcript llm tts text =
        Except.ok (TurnOutcome.aborted e)) ∧
    (∀ r e, llm text = Except.ok r → r ≠ "" → tts r = Except.error e →
      JarvisPipeline.handle_transcript llm tts text =
        Except.ok (TurnOutcome.aborted e)) := by
  refine ⟨?_, ?_, ?_⟩
  · intro e
    unfold JarvisPipeline.handle_transcript
    cases JarvisPipeline.turnBody llm tts text <;> simp
  · intro e he
    simp [JarvisPipeline.handle_transcript, JarvisPipeline.turnBody, he]
  · intro r e hr hne hte
    simp [JarvisPipeline.handle_transcript, JarvisPipeline.turnBody, hr, hne,
      hte]

/-- A language-model call that always raises, used to witness C9. -/
def llmBoom : String → Except String String := fun _ => Except.error "boom"

/-- A speech-synthesis call that always returns, used to witness C9. -/
def ttsOk : String → Except String Unit := fun _ => Except.ok ()

/-- C9, witness: with a raising LLM call, the handler returns an aborted
outcome and is not the error it caught. -/
theorem claim_C9_witness :
    JarvisPipeline.handle_transcript llmBoom ttsOk "hi" ≠
      Except.error "boom" ∧
    JarvisPipeline.handle_transcript llmBoom ttsOk "hi" =
      Except.ok (TurnOutcome.aborted "boom") :=
  ⟨(claim_C9_turn_errors_contained llmBoom ttsOk "hi").1 "boom",
   (claim_C9_turn_errors_contained llmBoom ttsOk "hi").2.1 "boom" rfl⟩

/-- The connect retry loop never performs more iterations than it has
remaining budget. -/
theorem connectLoop_attempts_le (attempts : Nat → Attempt) (i r : Nat) :
    (DirectDeepgramService.connectLoop attempts i r).2.1 ≤ r := by
  induction r generalizing i with
  | zero => simp [DirectDeepgramService.connectLoop]
  | succ r ih =>
    simp only [DirectDeepgramService.connectLoop]
    split
    · simp
    · have := ih (i + 1)
      simp only [Prod.snd, Prod.fst]
      omega

/-- When every attempt in the remaining budget fails, the retry loop
returns `false`, uses its whole budget, and sleeps the fixed 1-second
retry interval exactly between consecutive attempts. -/
theorem connectLoop_all_fail (attempts : Nat → Attempt) (r : Nat) :
    ∀ i, (∀ j, j < r → (attempts (i + j)).succeeds = false) →
    (DirectDeepgramService.connectLoop attempts i r).1 = false ∧
    (DirectDeepgramService.connectLoop attempts i r).2.1 = r ∧
    ((DirectDeepgramService.connectLoop attempts i r).2.2.filter
        (fun q => decide (q = (1 : ℚ)))).length = r - 1 := by
  induction r with
  | zero =>
    intro i _
    simp [DirectDeepgramService.connectLoop]
  | succ r ih =>
    intro i h
    have h0 : (attempts i).succeeds = false := by
      simpa using h 0 (Nat.succ_pos r)
    obtain ⟨hb, hn, hw⟩ := ih (i + 1) (fun j hj => by
      have hx : i + 1 + j = i + (j + 1) := by omega
      rw [hx]
      exact h (j + 1) (by omega))
    simp only [DirectDeepgramService.connectLoop, h0, Bool.false_eq_true,
      if_false]
    refine ⟨hb, by simpa using hn, ?_⟩
    have hs : ((if !(attempts i).raises && (attempts i).startOk then
        ([1/2] : List ℚ) else []).filter
          (fun q => decide (q = (1 : ℚ)))) = [] := by
      split
      · simp only [List.filter]
        norm_num
      · rfl
    have hrw : ((if r > 0 then ([1] : List ℚ) else []).filter
        (fun q => decide (q = (1 : ℚ)))).length = if r > 0 then 1 else 0 := by
      split <;> simp
    simp only [List.filter_append, hs, List.nil_append, List.length_append,
      hrw, hw]
    split <;> omega

/-- C7: when every one of the `max_retries` connection attempts fails to
confirm an open connection, `connect` performs exactly `max_retries`
attempts (never more, on any run), sleeps the fixed 1-second interval
between consecutive failed attempts, returns `False` without raising, and
pipeline setup then raises so the session never reports itself ready. -/
theorem claim_C7_connect_retries (attempts : Nat → Attempt) (m : Nat)
    (hfail : ∀ i, i < m → (attempts i).succeeds = false) :
    (DirectDeepgramService.connect attempts m).1 = false ∧
    (DirectDeepgramService.connect attempts m).2.1 = m ∧
    ((DirectDeepgramService.connect attempts m).2.2.filter
        (fun q => decide (q = (1 : ℚ)))).length = m - 1 ∧
    JarvisPipeline.setupConnect (DirectDeepgramService.connect attempts m).1 =
      Except.error "Critical: Cannot connect to Deepgram!" ∧
    (∀ a : Nat → Attempt, ∀ k : Nat,
      (DirectDeepgramService.connect a k).2.1 ≤ k) := by
  have h := connectLoop_all_fail attempts m 0 (fun j hj => by
    simpa using hfail j hj)
  refine ⟨h.1, h.2.1, h.2.2, ?_, fun a k => connectLoop_attempts_le a 0 k⟩
  have hfalse : (DirectDeepgramService.connect attempts m).1 = false := h.1
  rw [hfalse]
  rfl

/-- A connection-attempt trace whose every attempt raises, used to witness
C7. -/
def failingAttempts : Nat → Attempt := fun _ => ⟨true, false, false⟩

/-- C7, witness: three raising attempts exhaust the default retry budget,
with two 1-second waits in between, and setup reports the fatal error. -/
theorem claim_C7_witness :
    (DirectDeepgramService.connect failingAttempts 3).1 = false ∧
    (DirectDeepgramService.connect failingAttempts 3).2.1 = 3 ∧
    ((DirectDeepgramService.connect failingAttempts 3).2.2.filter
        (fun q => decide (q = (1 : ℚ)))).length = 2 ∧
    JarvisPipeline.setupConnect
        (DirectDeepgramService.connect failingAttempts 3).1 =
      Except.error "Critical: Cannot connect to Deepgram!" ∧
    (DirectDeepgramService.connect failingAttempts 3).2.1 ≤ 3 := by
  have h := claim_C7_connect_retries failingAttempts 3 (fun i _ => rfl)
  exact ⟨h.1, h.2.1, h.2.2.1, h.2.2.2.1, h.2.2.2.2 failingAttempts 3⟩

/-- The chunks drained from the buffer, followed by the remaining buffer,
reassemble the original buffer. -/
theorem drainBuffer_flatten (b : List Nat) :
    (JarvisPipeline.drainBuffer b).1.flatten ++
      (JarvisPipeline.drainBuffer b).2 = b := by
  induction b using JarvisPipeline.drainBuffer.induct with
  | case1 b h ih =>
    rw [JarvisPipeline.drainBuffer]
    simp only [dif_pos h, List.flatten_cons, List.append_assoc, ih]
    exact List.take_append_drop _ b
  | case2 b h =>
    rw [JarvisPipeline.drainBuffer]
    simp [dif_neg h]

/-- Every chunk drained from the buffer has length exactly `CHUNK_SIZE`,
and the remaining buffer is shorter than `CHUNK_SIZE`. -/
theorem drainBuffer_sizes (b : List Nat) :
    (∀ w ∈ (JarvisPipeline.drainBuffer b).1,
      w.length = JarvisPipeline.CHUNK_SIZE) ∧
    (JarvisPipeline.drainBuffer b).2.length < JarvisPipeline.CHUNK_SIZE := by
  induction b using JarvisPipeline.drainBuffer.induct with
  | case1 b h ih =>
    rw [JarvisPipeline.drainBuffer]
    simp only [dif_pos h]
    refine ⟨?_, ih.2⟩
    intro w hw
    rcases List.mem_cons.mp hw with hw | hw
    · subst hw
      simp [List.length_take]
      omega
    · exact ih.1 w hw
  | case2 b h =>
    rw [JarvisPipeline.drainBuffer]
    simp only [dif_neg h]
    refine ⟨by simp, ?_⟩
    omega

/-- The bytes written by the streaming loop are exactly the carried buffer
followed by the bytes of the remaining stream. -/
theorem speakLoop_flatten (cs : List (List Nat)) (b : List Nat) :
    (JarvisPipeline.speakLoop cs b).flatten = b ++ cs.flatten := by
  induction cs generalizing b with
  | nil =>
    by_cases hb : b.isEmpty
    · have : b = [] := by simpa using hb
      simp [JarvisPipeline.speakLoop, hb, this]
    · simp [JarvisPipeline.speakLoop, hb]
  | cons c cs ih =>
    by_cases hc : c.isEmpty
    · have hcnil : c = [] := by simpa using hc
      simp [JarvisPipeline.speakLoop, hc, ih, hcnil]
    · simp only [JarvisPipeline.speakLoop, hc, Bool.false_eq_true, if_false,
        List.flatten_append, ih, List.flatten_cons]
      rw [← List.append_assoc, drainBuffer_flatten (b ++ c),
        List.append_assoc]

/-- With a carried buffer shorter than `CHUNK_SIZE`, every write of the
streaming loop except possibly the last has length exactly
`CHUNK_SIZE`. -/
theorem speakLoop_sizes (cs : List (List Nat)) (b : List Nat)
    (hb : b.length < JarvisPipeline.CHUNK_SIZE) :
    ∀ w ∈ (JarvisPipeline.speakLoop cs b).dropLast,
      w.length = JarvisPipeline.CHUNK_SIZE := by
  induction cs generalizing b with
  | nil =>
    intro w hw
    by_cases hbe : b.isEmpty <;> simp [JarvisPipeline.speakLoop, hbe] at hw
  | cons c cs ih =>
    by_cases hc : c.isEmpty
    · simpa [JarvisPipeline.speakLoop, hc] using ih b hb
    · intro w hw
      simp only [JarvisPipeline.speakLoop, hc, Bool.false_eq_true,
        if_false] at hw
      rcases hW : JarvisPipeline.speakLoop cs
          (JarvisPipeline.drainBuffer (b ++ c)).2 with _ | ⟨x, xs⟩
      · rw [hW, List.append_nil] at hw
        exact (drainBuffer_sizes (b ++ c)).1 w (List.dropLast_subset _ hw)
      · rw [hW, List.dropLast_append_of_ne_nil _ (by simp)] at hw
        rcases List.mem_append.mp hw with hw | hw
        · exact (drainBuffer_sizes (b ++ c)).1 w hw
        · have := ih (JarvisPipeline.drainBuffer (b ++ c)).2
            (drainBuffer_sizes (b ++ c)).2
          rw [hW] at this
          exact this w hw

/-- C8: for every stream of synthesized audio chunks, the concatenation of
the byte chunks written to the WebSocket equals the concatenation of the
received stream (no truncation or duplication, the final partial chunk
included), and every written chunk except possibly the last has length
exactly `CHUNK_SIZE` (8192 bytes). -/
theorem claim_C8_audio_chunking (chunks : List (List Nat)) :
    (JarvisPipeline.speak_with_elevenlabs chunks).flatten = chunks.flatten ∧
    ((JarvisPipeline.speak_with_elevenlabs chunks).dropLast.all
      (fun w => w.length == JarvisPipeline.CHUNK_SIZE)) = true := by
  constructor
  · simpa [JarvisPipeline.speak_with_elevenlabs] using
      speakLoop_flatten chunks []
  · rw [List.all_eq_true]
    intro w hw
    have hs := speakLoop_sizes chunks []
      (by simp [JarvisPipeline.CHUNK_SIZE]) w hw
    simpa using hs
